import Mathlib

/-!
Verification development for the voice-dictation pipeline of the
claude-code-sleep-preventer application.

The Rust sources under scrutiny are:
  src/dictation/audio.rs          (AudioRecorder: capture, normalization, resampling)
  src/dictation/globe_key.rs      (GlobeKeyManager: event-tap edge detection, diagnostics)
  src/dictation/transcription.rs  (WhisperTranscriber: tool/model discovery, availability)
  src/dictation/overlay.rs        (RecordingOverlay: status strip)
  src/dictation/mod.rs            (DictationManager: the orchestrating state machine)

Pure computations are embedded as Lean functions; the floating-point sample
arithmetic of audio.rs is embedded over exact rationals.  Stateful code is
embedded as explicit state passing: foreign, fallible operations (opening a
capture stream, writing the WAV file) and data produced by other threads
(the captured sample buffer, the transcription outcome, the channel
observation made by a non-blocking receive) enter each step as explicit
environment inputs, exactly where the Rust code branches on their results.
-/

namespace Dictation

/-! ## Audio: resampling (audio.rs, AudioRecorder::resample) -/

/-- The linear-interpolation expression
`samples[src_idx] * (1.0 - frac) + samples[src_idx + 1] * frac`
from the body of `AudioRecorder::resample`, over exact rationals. -/
def lerp (a b frac : ℚ) : ℚ := a * (1 - frac) + b * frac

/-- The `src_pos.floor() as usize` index computation of one iteration of the
loop in `AudioRecorder::resample`, where `src_pos = i as f64 * ratio`. -/
def resampleSrcIdx (rat : ℚ) (i : ℕ) : ℕ := (Int.floor ((i : ℚ) * rat)).toNat

/-- One iteration of the output loop of `AudioRecorder::resample`:
`src_pos = i * ratio`, `src_idx = floor(src_pos)`, `frac = src_pos - src_idx`;
interpolate between `samples[src_idx]` and `samples[src_idx + 1]` when both
exist, fall back to `samples[src_idx]` when only it exists, and to `0.0`
otherwise (the source's defensive arm). -/
def resampleAt (samples : List ℚ) (rat : ℚ) (i : ℕ) : ℚ :=
  let srcPos : ℚ := (i : ℚ) * rat
  let srcIdx : ℕ := (Int.floor srcPos).toNat
  let frac : ℚ := srcPos - (srcIdx : ℚ)
  if srcIdx + 1 < samples.length then
    lerp (samples.getD srcIdx 0) (samples.getD (srcIdx + 1) 0) frac
  else if srcIdx < samples.length then
    samples.getD srcIdx 0
  else 0

/-- `AudioRecorder::resample(samples, from_rate, to_rate)`: empty input gives
empty output; otherwise `ratio = from_rate / to_rate`,
`output_len = ceil(samples.len() / ratio)`, and the output is the loop
`for i in 0..output_len` pushing one interpolated sample per index. -/
def resample (samples : List ℚ) (from_rate to_rate : ℕ) : List ℚ :=
  if samples.isEmpty then []
  else
    let rat : ℚ := (from_rate : ℚ) / (to_rate : ℚ)
    let output_len : ℕ := (Int.ceil ((samples.length : ℚ) / rat)).toNat
    (List.range output_len).map (fun i => resampleAt samples rat i)

/-! ## Audio: sample normalization (audio.rs, AudioRecorder::start_recording)

The three cpal input formats are buffered as `f32`.  The `I16` callback maps
`s as f32 / i16::MAX as f32`; the `U16` callback maps
`(s as f32 - u16::MAX as f32 / 2.0) / (u16::MAX as f32 / 2.0)`.
Both are embedded over exact rationals (`i16::MAX = 32767`,
`u16::MAX = 65535`). -/

/-- Normalization applied to one signed 16-bit sample by the `I16` input
callback of `AudioRecorder::start_recording`. -/
def normalize_i16 (s : ℤ) : ℚ := (s : ℚ) / 32767

/-- Normalization applied to one unsigned 16-bit sample by the `U16` input
callback of `AudioRecorder::start_recording`. -/
def normalize_u16 (u : ℕ) : ℚ := ((u : ℚ) - 65535 / 2) / (65535 / 2)

/-! ## Key-combination watcher (globe_key.rs) -/

/-- The events of `enum GlobeKeyEvent`. -/
inductive GlobeKeyEvent where
  | Ready
  | DictateStart
  | DictateStop
  deriving DecidableEq, Repr

/-- `kCGEventFlagMaskSecondaryFn = 0x00800000` (ffi module of globe_key.rs). -/
def kCGEventFlagMaskSecondaryFn : ℕ := 0x00800000

/-- `kCGEventFlagMaskShift = 0x00020000` (ffi module of globe_key.rs). -/
def kCGEventFlagMaskShift : ℕ := 0x00020000

/-- The mutable fields of `struct CallbackState` (the channel sender is left
implicit: emitted events are returned by the step function instead). -/
structure CallbackState where
  fn_down : Bool
  shift_down : Bool
  is_dictating : Bool
  deriving DecidableEq, Repr

/-- Whether the required modifier set (Fn and Shift) is fully held in a raw
`CGEventFlags` word, as computed inside `event_tap_callback`. -/
def requiredHeld (flags : ℕ) : Bool :=
  ((flags &&& kCGEventFlagMaskSecondaryFn) != 0) && ((flags &&& kCGEventFlagMaskShift) != 0)

/-- The flags-changed branch of `event_tap_callback` (globe_key.rs): recompute
`fn_down` and `shift_down` from the event's flags, store them, then emit
`DictateStart` on a false-to-true edge of `fn_down && shift_down` and
`DictateStop` on a true-to-false edge, updating `is_dictating` accordingly.
The returned option is the event sent on the watcher channel, if any. -/
def flagsChangedStep (st : CallbackState) (flags : ℕ) : CallbackState × Option GlobeKeyEvent :=
  let fn_down := (flags &&& kCGEventFlagMaskSecondaryFn) != 0
  let shift_down := (flags &&& kCGEventFlagMaskShift) != 0
  let st1 : CallbackState := { st with fn_down := fn_down, shift_down := shift_down }
  let should_dictate := fn_down && shift_down
  if should_dictate && !st1.is_dictating then
    ({ st1 with is_dictating := true }, some GlobeKeyEvent.DictateStart)
  else if !should_dictate && st1.is_dictating then
    ({ st1 with is_dictating := false }, some GlobeKeyEvent.DictateStop)
  else
    (st1, none)

/-- A sequence of flags-changed events processed by `event_tap_callback`
against one live callback state: the final state and the concatenation of all
events emitted on the watcher channel, in order. -/
def flagsChangedRun (st : CallbackState) : List ℕ → CallbackState × List GlobeKeyEvent
  | [] => (st, [])
  | f :: fs =>
    let step := flagsChangedStep st f
    let rest := flagsChangedRun step.1 fs
    (rest.1, step.2.toList ++ rest.2)

/-- Checker for the shape the emitted event stream must have: relative to the
current `is_dictating` value, a `DictateStart` may appear only while not
dictating and a `DictateStop` only while dictating, strictly alternating; a
`Ready` never appears.  In particular two `DictateStart`s can never occur
without an intervening `DictateStop`. -/
def startStopChain (d : Bool) : List GlobeKeyEvent → Bool
  | [] => true
  | GlobeKeyEvent.DictateStart :: evs => if d then false else startStopChain true evs
  | GlobeKeyEvent.DictateStop :: evs => if d then startStopChain false evs else false
  | GlobeKeyEvent.Ready :: _ => false

/-! ## Watcher diagnostics (globe_key.rs, take_diagnostics) -/

/-- The `u64::MAX` sentinel stored in `LAST_KEYCODE` to mean "none yet". -/
def U64_MAX : ℕ := 18446744073709551615

/-- The five atomic diagnostic cells of globe_key.rs:
`FLAGS_EVENT_COUNT`, `DISABLED_TIMEOUT_COUNT`, `DISABLED_USER_INPUT_COUNT`,
`LAST_FLAGS_RAW`, `LAST_KEYCODE`. -/
structure DiagnosticsCells where
  flags_event_count : ℕ
  disabled_timeout_count : ℕ
  disabled_user_input_count : ℕ
  last_flags_raw : ℕ
  last_keycode : ℕ
  deriving DecidableEq, Repr

/-- `struct GlobeKeyDiagnostics`, the value returned by `take_diagnostics`. -/
structure GlobeKeyDiagnostics where
  flags_events : ℕ
  disabled_timeout : ℕ
  disabled_user_input : ℕ
  last_flags_raw : ℕ
  last_keycode : Option ℕ
  deriving DecidableEq, Repr

/-- `take_diagnostics()` (globe_key.rs): the three counters are read with
`swap(0)` (read and reset); `LAST_FLAGS_RAW` and `LAST_KEYCODE` are read with
`load` (read only).  Returns the reported diagnostics together with the cell
contents left behind. -/
def take_diagnostics (c : DiagnosticsCells) : GlobeKeyDiagnostics × DiagnosticsCells :=
  ({ flags_events := c.flags_event_count
     disabled_timeout := c.disabled_timeout_count
     disabled_user_input := c.disabled_user_input_count
     last_flags_raw := c.last_flags_raw
     last_keycode := if c.last_keycode = U64_MAX then none else some c.last_keycode },
   { c with
     flags_event_count := 0
     disabled_timeout_count := 0
     disabled_user_input_count := 0 })

/-! ## Transcription engine discovery (transcription.rs) -/

/-- The filesystem and process environment consulted by
`WhisperTranscriber::new`: which paths exist, the `WHISPER_MODEL` variable,
the `Contents` directory of the bundle when `current_exe` resolves two parent
levels up, and the user's local data directory. -/
structure FsEnv where
  file_exists : String → Bool
  whisper_model_env : Option String
  contents_dir : Option String
  data_local_dir : Option String

/-- `WhisperTranscriber::app_support_dir()`:
`dirs::data_local_dir()` (or `/tmp`) joined with `ClaudeSleepPreventer`. -/
def app_support_dir (env : FsEnv) : String :=
  (env.data_local_dir.getD "/tmp") ++ "/ClaudeSleepPreventer"

/-- The model name: the `WHISPER_MODEL` environment variable, defaulting to
`medium` (first line of `WhisperTranscriber::find_model`). -/
def model_name_of (env : FsEnv) : String :=
  env.whisper_model_env.getD "medium"

/-- The downloaded-model path probed first by `find_model`. -/
def app_model_path (env : FsEnv) : String :=
  app_support_dir env ++ "/models/ggml-" ++ model_name_of env ++ ".bin"

/-- The homebrew models directory of `find_model`. -/
def homebrew_models_dir : String := "/opt/homebrew/share/whisper-cpp/models"

/-- The quantized homebrew model path probed by `find_model`. -/
def quantized_model_path (env : FsEnv) : String :=
  homebrew_models_dir ++ "/ggml-" ++ model_name_of env ++ "-q5_0.bin"

/-- The standard homebrew model path probed by `find_model`. -/
def standard_model_path (env : FsEnv) : String :=
  homebrew_models_dir ++ "/ggml-" ++ model_name_of env ++ ".bin"

/-- The quantized base-model fallback path probed by `find_model`. -/
def base_quantized_model_path : String := homebrew_models_dir ++ "/ggml-base-q5_0.bin"

/-- The standard base-model fallback path probed by `find_model`. -/
def base_standard_model_path : String := homebrew_models_dir ++ "/ggml-base.bin"

/-- `WhisperTranscriber::find_model()`: probe the app-support models
directory, then the quantized and standard homebrew models for the selected
name, then the base-model fallbacks; `None` when none of the five exists. -/
def find_model (env : FsEnv) : Option String :=
  if env.file_exists (app_model_path env) then some (app_model_path env)
  else if env.file_exists (quantized_model_path env) then some (quantized_model_path env)
  else if env.file_exists (standard_model_path env) then some (standard_model_path env)
  else if env.file_exists base_quantized_model_path then some base_quantized_model_path
  else if env.file_exists base_standard_model_path then some base_standard_model_path
  else none

/-- The homebrew whisper-cli path for Apple Silicon probed by
`find_whisper_cli`. -/
def homebrew_arm_whisper : String := "/opt/homebrew/bin/whisper-cli"

/-- The homebrew whisper-cli path for Intel probed by `find_whisper_cli`. -/
def homebrew_intel_whisper : String := "/usr/local/bin/whisper-cli"

/-- The homebrew-then-bare-name tail of `find_whisper_cli`: try the two
homebrew locations, then fall back to the bare name `whisper-cli`, relying on
the caller's PATH resolution.  This tail never fails. -/
def find_whisper_cli_fallback (env : FsEnv) : String :=
  if env.file_exists homebrew_arm_whisper then homebrew_arm_whisper
  else if env.file_exists homebrew_intel_whisper then homebrew_intel_whisper
  else "whisper-cli"

/-- `WhisperTranscriber::find_whisper_cli()`: probe the bundled
`Contents/Resources/whisper-cli` when the executable's bundle directory
resolves, then the homebrew locations, then return the bare name. -/
def find_whisper_cli (env : FsEnv) : String :=
  match env.contents_dir with
  | some d =>
    if env.file_exists (d ++ "/Resources/whisper-cli") then d ++ "/Resources/whisper-cli"
    else find_whisper_cli_fallback env
  | none => find_whisper_cli_fallback env

/-- Spec-reading helper: whether the executable was actually located at some
probed filesystem path, that is, whether any of the bundled or homebrew
whisper-cli paths exists.  When this is false, `find_whisper_cli` still
returns the bare name `whisper-cli` without having verified anything. -/
def whisper_cli_located (env : FsEnv) : Bool :=
  (match env.contents_dir with
   | some d => env.file_exists (d ++ "/Resources/whisper-cli")
   | none => false)
  || env.file_exists homebrew_arm_whisper
  || env.file_exists homebrew_intel_whisper

/-- The two fields of `struct WhisperTranscriber` set by its constructor. -/
structure WhisperTranscriber where
  model_path : Option String
  whisper_path : String
  deriving DecidableEq, Repr

/-- `WhisperTranscriber::new()`. -/
def WhisperTranscriber.new (env : FsEnv) : WhisperTranscriber :=
  { model_path := find_model env, whisper_path := find_whisper_cli env }

/-- `WhisperTranscriber::is_available()`: `self.model_path.is_some()`. -/
def WhisperTranscriber.is_available (t : WhisperTranscriber) : Bool :=
  t.model_path.isSome

/-- A concrete environment for settling C5: no whisper-cli executable exists
anywhere on this filesystem, but the downloaded medium model does. -/
def c5Env : FsEnv :=
  { file_exists := fun p => p == "/tmp/ClaudeSleepPreventer/models/ggml-medium.bin"
    whisper_model_env := none
    contents_dir := none
    data_local_dir := none }

/-! ## Status overlay (overlay.rs) -/

/-- `enum OverlayMode`. -/
inductive OverlayMode where
  | Recording
  | Transcribing
  deriving DecidableEq, Repr

/-- `struct RecordingOverlay`: whether the NSWindow currently exists, and the
last mode set.  Window creation is modelled as always succeeding (the source's
`screen == nil` / `window == nil` bailouts are display-server failures). -/
structure RecordingOverlay where
  window : Bool
  mode : OverlayMode
  deriving DecidableEq, Repr

/-- `RecordingOverlay::new()`. -/
def RecordingOverlay.new : RecordingOverlay :=
  { window := false, mode := OverlayMode.Recording }

/-- `RecordingOverlay::show_with_mode`: store the mode; recolor when the
window already exists, create and show it otherwise.  Either way the window
exists afterwards. -/
def RecordingOverlay.show_with_mode (_o : RecordingOverlay) (m : OverlayMode) : RecordingOverlay :=
  { window := true, mode := m }

/-- `RecordingOverlay::show()`: `show_with_mode(Recording)`. -/
def RecordingOverlay.show_overlay (o : RecordingOverlay) : RecordingOverlay :=
  o.show_with_mode OverlayMode.Recording

/-- `RecordingOverlay::set_mode`: recolor only when the window exists. -/
def RecordingOverlay.set_mode (o : RecordingOverlay) (m : OverlayMode) : RecordingOverlay :=
  if o.window then o.show_with_mode m else o

/-- `RecordingOverlay::hide()`: close and drop the window if present. -/
def RecordingOverlay.hide (o : RecordingOverlay) : RecordingOverlay :=
  { o with window := false }

/-- `RecordingOverlay::is_visible()`: `self.window.is_some()`. -/
def RecordingOverlay.is_visible (o : RecordingOverlay) : Bool :=
  o.window

/-! ## Dictation orchestrator (mod.rs, DictationManager) -/

/-- `enum DictationState`. -/
inductive DictationState where
  | Idle
  | Recording
  | Transcribing
  deriving DecidableEq, Repr

/-- `enum DictationResult`. -/
inductive DictationResult where
  | Transcribed (text : String)
  | Error (msg : String)
  deriving DecidableEq, Repr

/-- The observation a `try_recv()` on the result channel yields in one
`update()` call (std::sync::mpsc semantics). -/
inductive TryRecvOutcome where
  | Msg (r : DictationResult)
  | Empty
  | Disconnected
  deriving DecidableEq, Repr

/-- `struct AudioRecorder` as the orchestrator sees it: the lock-protected
capture buffer.  The device sample rate and channel count play no part in any
claim and are omitted; the buffer holds the already-normalized f32 samples,
as exact rationals. -/
structure AudioRecorder where
  samples : List ℚ
  deriving DecidableEq, Repr

/-- `struct DictationManager` (the components a claim observes):
`state`, the optional recorder, the overlay, whether `result_rx` holds a live
receiver, the `enabled` flag, and whether the globe-key watcher is running
(`GlobeKeyManager` holds a live `event_rx`).  The transcriber availability is
carried too; `update()` never consults it (only `DictationManager::start`
does, to refuse to install the watcher). -/
structure DictationManager where
  state : DictationState
  recorder : Option AudioRecorder
  overlay : RecordingOverlay
  result_rx : Bool
  enabled : Bool
  watcher_running : Bool
  transcriber_available : Bool
  deriving DecidableEq, Repr

/-- The world one dictation session touches: the manager plus whether the
process-unique temporary audio file `dictation_{pid}.wav` currently exists. -/
structure SessionWorld where
  manager : DictationManager
  temp_file : Bool
  deriving DecidableEq, Repr

/-- The outcomes of the foreign, fallible operations one `update()` step can
perform: whether `AudioRecorder::new()` plus `start_recording()` succeed, and
whether `save_to_wav` succeeds. -/
structure StepEnv where
  capture_ok : Bool
  save_ok : Bool
  deriving DecidableEq, Repr

/-- The hardware audio callback (cpal thread): appends normalized samples to
the live recorder's buffer.  A no-op when no recorder is live. -/
def hardware_append (w : SessionWorld) (data : List ℚ) : SessionWorld :=
  match w.manager.recorder with
  | some r => { w with manager := { w.manager with recorder := some ⟨r.samples ++ data⟩ } }
  | none => w

/-- `DictationManager::start_recording` (mod.rs): create a recorder and start
the stream; on failure log and return with nothing changed; on success store
the recorder (fresh cleared buffer), show the overlay, and enter `Recording`. -/
def start_recording (env : StepEnv) (m : DictationManager) : DictationManager :=
  if env.capture_ok then
    { m with
      recorder := some ⟨[]⟩
      overlay := m.overlay.show_overlay
      state := DictationState.Recording }
  else m

/-- `DictationManager::stop_and_transcribe` (mod.rs): switch the overlay to
`Transcribing`; drain the recorder (no recorder: hide and go `Idle`); empty
drain: hide and go `Idle`; otherwise take the recorder, write the temp WAV
(failure: hide and go `Idle`), install a fresh result channel, enter
`Transcribing` and spawn the worker.  A failed save is modelled as leaving no
usable temp file behind (the partial-file case is not modelled; no claim
depends on it). -/
def stop_and_transcribe (env : StepEnv) (w : SessionWorld) : SessionWorld :=
  let m := w.manager
  let overlay1 := m.overlay.set_mode OverlayMode.Transcribing
  match m.recorder with
  | none =>
    { w with manager := { m with overlay := overlay1.hide, state := DictationState.Idle } }
  | some r =>
    let samples := r.samples
    if samples.isEmpty then
      { w with manager :=
          { m with
            recorder := some ⟨[]⟩
            overlay := overlay1.hide
            state := DictationState.Idle } }
    else if env.save_ok then
      { manager :=
          { m with
            recorder := none
            overlay := overlay1
            result_rx := true
            state := DictationState.Transcribing }
        temp_file := true }
    else
      { manager :=
          { m with
            recorder := none
            overlay := overlay1.hide
            state := DictationState.Idle }
        temp_file := w.temp_file }

/-- The body of the worker thread spawned by `stop_and_transcribe`: run
`transcribe` (its outcome supplied by the environment), unconditionally remove
the temp audio file, then send the result.  Returns the temp-file state after
the worker and the message it put on the channel. -/
def transcription_worker (outcome : Except String String) : Bool × DictationResult :=
  (false,
   match outcome with
   | Except.ok text => DictationResult.Transcribed text
   | Except.error e => DictationResult.Error e)

/-- One globe-key event handled inside the `while let Some(event)` loop of
`DictationManager::update`: `Ready` is only logged; `DictateStart` acts only
while `Idle`; `DictateStop` acts only while `Recording`. -/
def handle_globe_event (env : StepEnv) (w : SessionWorld) : GlobeKeyEvent → SessionWorld
  | GlobeKeyEvent.Ready => w
  | GlobeKeyEvent.DictateStart =>
    if w.manager.state = DictationState.Idle then
      { w with manager := start_recording env w.manager }
    else w
  | GlobeKeyEvent.DictateStop =>
    if w.manager.state = DictationState.Recording then
      stop_and_transcribe env w
    else w

/-- The result-channel half of `DictationManager::update`: only while
`Transcribing` with a live receiver; a received `Transcribed` injects the text
(an OS effect outside this model), hides the overlay and returns to `Idle`; a
received `Error` or a disconnection likewise hide the overlay and return to
`Idle`; all three drop the receiver.  `Empty` leaves everything in place. -/
def check_result (m : DictationManager) (recv : TryRecvOutcome) : DictationManager :=
  if m.state = DictationState.Transcribing then
    if m.result_rx then
      match recv with
      | TryRecvOutcome.Msg (DictationResult.Transcribed _) =>
        { m with overlay := m.overlay.hide, state := DictationState.Idle, result_rx := false }
      | TryRecvOutcome.Msg (DictationResult.Error _) =>
        { m with overlay := m.overlay.hide, state := DictationState.Idle, result_rx := false }
      | TryRecvOutcome.Empty => m
      | TryRecvOutcome.Disconnected =>
        { m with overlay := m.overlay.hide, state := DictationState.Idle, result_rx := false }
    else m
  else m

/-- `DictationManager::update()`: bail out immediately when disabled, leaving
the pending watcher queue and everything else untouched; otherwise drain all
pending watcher events in arrival order, then poll the result channel once.
Returns the new world and the queue left unconsumed. -/
def update (env : StepEnv) (w : SessionWorld) (queue : List GlobeKeyEvent)
    (recv : TryRecvOutcome) : SessionWorld × List GlobeKeyEvent :=
  if !w.manager.enabled then (w, queue)
  else
    let w1 := queue.foldl (handle_globe_event env) w
    ({ w1 with manager := check_result w1.manager recv }, [])

/-- `DictationManager::stop()`: stop the globe-key watcher, hide the overlay,
force the state to `Idle`. -/
def DictationManager.stop (m : DictationManager) : DictationManager :=
  { m with
    watcher_running := false
    overlay := m.overlay.hide
    state := DictationState.Idle }

/-- `DictationManager::set_enabled`: record the flag; on disabling, also run
`stop()`. -/
def set_enabled (m : DictationManager) (e : Bool) : DictationManager :=
  let m1 := { m with enabled := e }
  if !e then m1.stop else m1

/-- One full session tail for the cleanup claim: the `DictateStop` handling,
the spawned worker running to completion, and a later `update` observing the
channel (the worker's message, or a disconnection).  The temp-file state after
the worker is the file state the concluded session leaves behind. -/
def session_conclusion (env : StepEnv) (w : SessionWorld) (outcome : Except String String)
    (recv : TryRecvOutcome) : SessionWorld :=
  let w1 := handle_globe_event env w GlobeKeyEvent.DictateStop
  { manager := check_result w1.manager recv
    temp_file := (transcription_worker outcome).1 }

/-- A concrete mid-recording world: recording, one captured sample, overlay
showing. -/
def c1World : SessionWorld :=
  { manager :=
      { state := DictationState.Recording
        recorder := some ⟨[1]⟩
        overlay := { window := true, mode := OverlayMode.Recording }
        result_rx := false
        enabled := true
        watcher_running := true
        transcriber_available := true }
    temp_file := false }

/-- A concrete idle world with the watcher installed and the engine
available. -/
def idleWorld : SessionWorld :=
  { manager :=
      { state := DictationState.Idle
        recorder := none
        overlay := RecordingOverlay.new
        result_rx := false
        enabled := true
        watcher_running := true
        transcriber_available := true }
    temp_file := false }

/-- A concrete recording world whose capture buffer drained empty. -/
def emptyBufferWorld : SessionWorld :=
  { c1World with manager := { c1World.manager with recorder := some ⟨[]⟩ } }

/-- A concrete world whose manager has been disabled. -/
def disabledWorld : SessionWorld :=
  { c1World with manager := { c1World.manager with enabled := false } }

/-! ## Helper lemmas -/

/-- Ceiling of a division of naturals over exact rationals, against a
candidate quotient bracketed by the usual inequalities. -/
theorem ceil_nat_div_eq (a f q : ℕ) (hf : 0 < f)
    (hA : a ≤ f * q) (hB : f * q < a + f) :
    Int.ceil ((a : ℚ) / (f : ℚ)) = (q : ℤ) := by
  have hfq : (0 : ℚ) < (f : ℚ) := by exact_mod_cast hf
  rw [Int.ceil_eq_iff]
  constructor
  · rw [lt_div_iff₀ hfq]
    have hB' : (f : ℚ) * (q : ℚ) < (a : ℚ) + (f : ℚ) := by exact_mod_cast hB
    push_cast
    nlinarith
  · rw [div_le_iff₀ hfq]
    have hA' : (a : ℚ) ≤ (f : ℚ) * (q : ℚ) := by exact_mod_cast hA
    push_cast
    nlinarith

/-- The integer form of the source's output-length formula: over exact
rationals, the ceiling of a natural number divided by a positive ratio of
naturals equals the usual natural-division ceiling expression. -/
theorem ceil_div_ratio_toNat (n f t : ℕ) (hf : 0 < f) (_ht : 0 < t) :
    (Int.ceil ((n : ℚ) / ((f : ℚ) / (t : ℚ)))).toNat = (n * t + (f - 1)) / f := by
  have hdiv : (n : ℚ) / ((f : ℚ) / (t : ℚ)) = ((n * t : ℕ) : ℚ) / (f : ℚ) := by
    push_cast
    rw [div_div_eq_mul_div]
  rw [hdiv]
  have hmod := Nat.div_add_mod (n * t + (f - 1)) f
  have hmodlt : (n * t + (f - 1)) % f < f := Nat.mod_lt _ hf
  have hA : n * t ≤ f * ((n * t + (f - 1)) / f) := by omega
  have hB : f * ((n * t + (f - 1)) / f) < n * t + f := by omega
  rw [ceil_nat_div_eq (n * t) f ((n * t + (f - 1)) / f) hf hA hB]
  exact Int.toNat_natCast _

/-- Every output index of the resampling loop lands its floored source
position strictly inside the input: the defensive zero arm is unreachable. -/
theorem srcIdx_lt_of_lt_ceil (n i : ℕ) (rat : ℚ) (hrat : 0 < rat)
    (hi : i < (Int.ceil ((n : ℚ) / rat)).toNat) :
    resampleSrcIdx rat i < n := by
  unfold resampleSrcIdx
  have h1 : (i : ℤ) < Int.ceil ((n : ℚ) / rat) := by omega
  have h2 : (i : ℚ) < (n : ℚ) / rat := by
    have h := Int.lt_ceil.mp h1
    exact_mod_cast h
  have h3 : (i : ℚ) * rat < (n : ℚ) := (lt_div_iff₀ hrat).mp h2
  have h4 : Int.floor ((i : ℚ) * rat) < (n : ℤ) := by
    rw [Int.floor_lt]
    exact_mod_cast h3
  have h5 : 0 ≤ Int.floor ((i : ℚ) * rat) := Int.floor_nonneg.mpr (by positivity)
  omega

/-- Reading back the i-th pushed sample of the resampling loop. -/
theorem getD_map_range (L : ℕ) (g : ℕ → ℚ) (i : ℕ) (hi : i < L) :
    ((List.range L).map g).getD i 0 = g i := by
  rw [List.getD_eq_getElem?_getD, List.getElem?_map, List.getElem?_range hi]
  rfl

/-- Unfolding `resample` on a non-empty input. -/
theorem resample_eq_of_ne_nil (samples : List ℚ) (f t : ℕ) (hs : samples ≠ []) :
    resample samples f t =
      (List.range ((Int.ceil ((samples.length : ℚ) / ((f : ℚ) / (t : ℚ)))).toNat)).map
        (fun i => resampleAt samples ((f : ℚ) / (t : ℚ)) i) := by
  cases samples with
  | nil => exact absurd rfl hs
  | cons a l => rfl

/-- Hiding the overlay always leaves it invisible. -/
theorem hide_is_visible (o : RecordingOverlay) : (o.hide).is_visible = false := rfl

/-! ## Claim theorems -/

/-- C6: for every non-empty sample sequence and positive rates, the length of
the resampled output is the ceiling of the input length divided by the ratio
from_rate / to_rate, which as a natural number is
(len * to_rate + (from_rate - 1)) / from_rate. -/
theorem resample_length (samples : List ℚ) (from_rate to_rate : ℕ)
    (hs : samples ≠ []) (hf : 0 < from_rate) (ht : 0 < to_rate) :
    (resample samples from_rate to_rate).length
        = (Int.ceil ((samples.length : ℚ) / ((from_rate : ℚ) / (to_rate : ℚ)))).toNat ∧
      (resample samples from_rate to_rate).length
        = (samples.length * to_rate + (from_rate - 1)) / from_rate := by
  have hlen : (resample samples from_rate to_rate).length
      = (Int.ceil ((samples.length : ℚ) / ((from_rate : ℚ) / (to_rate : ℚ)))).toNat := by
    rw [resample_eq_of_ne_nil samples from_rate to_rate hs, List.length_map, List.length_range]
  exact ⟨hlen, hlen.trans (ceil_div_ratio_toNat samples.length from_rate to_rate hf ht)⟩

/-- Witness for C6 at a six-sample input downsampled 3:1. -/
theorem resample_length_witness :
    (([(1 : ℚ), 2, 3, 4, 5, 6] : List ℚ) ≠ [] ∧ 0 < 3 ∧ 0 < 1) ∧
      (resample [(1 : ℚ), 2, 3, 4, 5, 6] 3 1).length = 2 :=
  ⟨⟨by decide, by decide, by decide⟩,
   (resample_length [(1 : ℚ), 2, 3, 4, 5, 6] 3 1 (by decide) (by decide) (by decide)).2.trans
     (by decide)⟩

/-- C7: every output sample of the resampler is the linear interpolation of
the two input samples around the floored source position; when that position
reaches the end of the input the output clamps to the last input sample; the
floored source index always lies inside the input, so no output sample is
drawn from beyond the input or replaced by the defensive zero. -/
theorem resample_interpolates (samples : List ℚ) (from_rate to_rate : ℕ)
    (hs : samples ≠ []) (hf : 0 < from_rate) (ht : 0 < to_rate)
    (i srcIdx : ℕ) (hi : i < (resample samples from_rate to_rate).length)
    (hidx : srcIdx = resampleSrcIdx ((from_rate : ℚ) / (to_rate : ℚ)) i) :
    srcIdx < samples.length ∧
      (resample samples from_rate to_rate).getD i 0 =
        (if srcIdx + 1 < samples.length then
          lerp (samples.getD srcIdx 0) (samples.getD (srcIdx + 1) 0)
            ((i : ℚ) * ((from_rate : ℚ) / (to_rate : ℚ)) - (srcIdx : ℚ))
        else samples.getD (samples.length - 1) 0) := by
  subst hidx
  have hfq : (0 : ℚ) < (from_rate : ℚ) := by exact_mod_cast hf
  have htq : (0 : ℚ) < (to_rate : ℚ) := by exact_mod_cast ht
  have hrat : 0 < (from_rate : ℚ) / (to_rate : ℚ) := div_pos hfq htq
  rw [resample_eq_of_ne_nil samples from_rate to_rate hs, List.length_map,
    List.length_range] at hi
  have hlt : resampleSrcIdx ((from_rate : ℚ) / (to_rate : ℚ)) i < samples.length :=
    srcIdx_lt_of_lt_ceil samples.length i _ hrat hi
  refine ⟨hlt, ?_⟩
  rw [resample_eq_of_ne_nil samples from_rate to_rate hs, getD_map_range _ _ _ hi]
  unfold resampleSrcIdx at hlt ⊢
  simp only [resampleAt]
  by_cases h : (Int.floor ((i : ℚ) * ((from_rate : ℚ) / (to_rate : ℚ)))).toNat + 1
      < samples.length
  · simp [h]
  · have hlen0 : 0 < samples.length := by omega
    have heq : (Int.floor ((i : ℚ) * ((from_rate : ℚ) / (to_rate : ℚ)))).toNat
        = samples.length - 1 := by omega
    have hcond : ¬(samples.length - 1 + 1 < samples.length) := by omega
    simp [h, hlt, heq, hcond, hlen0]

/-- Witness for C7 at a two-sample input upsampled 1:2, output index 1. -/
theorem resample_interpolates_witness :
    0 < ([(1 : ℚ), 2] : List ℚ).length ∧ (resample [(1 : ℚ), 2] 1 2).getD 1 0 = 3 / 2 :=
  have hlen : 1 < (resample [(1 : ℚ), 2] 1 2).length := by
    rw [resample_eq_of_ne_nil [(1 : ℚ), 2] 1 2 (by simp)]
    simp only [List.length_map, List.length_range]
    norm_num
  have hidx : (0 : ℕ) = resampleSrcIdx (((1 : ℕ) : ℚ) / ((2 : ℕ) : ℚ)) 1 := by
    norm_num [resampleSrcIdx]
  ⟨(resample_interpolates [(1 : ℚ), 2] 1 2 (by simp) (by decide) (by decide) 1 0 hlen hidx).1,
   ((resample_interpolates [(1 : ℚ), 2] 1 2 (by simp) (by decide) (by decide) 1 0 hlen
      hidx).2).trans (by norm_num [lerp])⟩

/-- C8 counterexample: the signed 16-bit sample -32768 (i16::MIN) is
normalized to -32768/32767, which is strictly below -1, so not every
normalized signed sample lies in the interval from -1 to 1. -/
theorem normalize_i16_min_below_neg_one :
    normalize_i16 (-32768) < -1 := by norm_num [normalize_i16]

/-- C8 (amended): every normalized signed 16-bit sample lies between
-(32768/32767) and 1 (so every signed sample other than -32768 lies in the
claimed interval), and every normalized unsigned 16-bit sample lies between
-1 and 1. -/
theorem normalize_bounds (s : ℤ) (u : ℕ)
    (hs1 : -32768 ≤ s) (hs2 : s ≤ 32767) (hu : u ≤ 65535) :
    (-(32768 / 32767) ≤ normalize_i16 s ∧ normalize_i16 s ≤ 1) ∧
      (-1 ≤ normalize_u16 u ∧ normalize_u16 u ≤ 1) := by
  have h1 : (-32768 : ℚ) ≤ (s : ℚ) := by exact_mod_cast hs1
  have h2 : (s : ℚ) ≤ 32767 := by exact_mod_cast hs2
  have h3 : (u : ℚ) ≤ 65535 := by exact_mod_cast hu
  have h4 : (0 : ℚ) ≤ (u : ℚ) := by positivity
  have hpos : (0 : ℚ) < 65535 / 2 := by norm_num
  unfold normalize_i16 normalize_u16
  refine ⟨⟨?_, ?_⟩, ?_, ?_⟩
  · rw [show (-(32768 / 32767) : ℚ) = (-32768) / 32767 by ring]
    gcongr
  · rw [div_le_one (by norm_num)]
    exact h2
  · rw [le_div_iff₀ hpos]
    linarith
  · rw [div_le_one hpos]
    linarith

/-- Witness for C8 (amended) at the signed sample -100 and the unsigned
sample 3. -/
theorem normalize_bounds_witness :
    ((-32768 : ℤ) ≤ -100 ∧ (-100 : ℤ) ≤ 32767 ∧ (3 : ℕ) ≤ 65535) ∧
      (normalize_i16 (-100) ≤ 1 ∧ -1 ≤ normalize_u16 3) :=
  ⟨⟨by decide, by decide, by decide⟩,
   ⟨(normalize_bounds (-100) 3 (by decide) (by decide) (by decide)).1.2,
    (normalize_bounds (-100) 3 (by decide) (by decide) (by decide)).2.1⟩⟩

/-- One flags-changed callback invocation characterized: a start is emitted
exactly on a rising edge of the required-held predicate, a stop exactly on a
falling edge, never a Ready, and the stored dictating flag always tracks the
held state of the event just processed. -/
theorem flagsChangedStep_spec (st : CallbackState) (flags : ℕ) :
    ((flagsChangedStep st flags).2 = some GlobeKeyEvent.DictateStart ↔
      requiredHeld flags = true ∧ st.is_dictating = false) ∧
    ((flagsChangedStep st flags).2 = some GlobeKeyEvent.DictateStop ↔
      requiredHeld flags = false ∧ st.is_dictating = true) ∧
    (flagsChangedStep st flags).2 ≠ some GlobeKeyEvent.Ready ∧
    ((flagsChangedStep st flags).1).is_dictating = requiredHeld flags := by
  by_cases hA : flags &&& kCGEventFlagMaskSecondaryFn = 0 <;>
    by_cases hB : flags &&& kCGEventFlagMaskShift = 0 <;>
      cases hd : st.is_dictating <;>
        simp_all [flagsChangedStep, requiredHeld]

/-- The event stream a callback state produces over any sequence of
flags-changed events alternates starts and stops relative to its initial
dictating flag. -/
theorem flagsChangedRun_chain (fs : List ℕ) (st : CallbackState) :
    startStopChain st.is_dictating (flagsChangedRun st fs).2 = true := by
  induction fs generalizing st with
  | nil => rfl
  | cons f fs ih =>
    obtain ⟨hstart, hstop, hready, hdict⟩ := flagsChangedStep_spec st f
    rcases hstep : flagsChangedStep st f with ⟨st1, ev⟩
    rw [hstep] at hstart hstop hready hdict
    have hrun : flagsChangedRun st (f :: fs)
        = ((flagsChangedRun st1 fs).1, ev.toList ++ (flagsChangedRun st1 fs).2) := by
      simp [flagsChangedRun, hstep]
    rw [hrun]
    cases ev with
    | none =>
      have hsame : st1.is_dictating = st.is_dictating := by
        cases hh : requiredHeld f <;> cases hd : st.is_dictating <;> simp_all
      simp only [Option.toList_none, List.nil_append]
      rw [← hsame]
      exact ih st1
    | some e =>
      cases e with
      | Ready =>
        simp at hready
      | DictateStart =>
        obtain ⟨hh, hd⟩ := hstart.mp rfl
        have h1 : st1.is_dictating = true := by simp_all
        have hih := ih st1
        rw [h1] at hih
        simp only [Option.toList_some, List.cons_append, List.nil_append, hd,
          startStopChain, if_neg Bool.false_ne_true]
        simpa using hih
      | DictateStop =>
        obtain ⟨hh, hd⟩ := hstop.mp rfl
        have h1 : st1.is_dictating = false := by simp_all
        have hih := ih st1
        rw [h1] at hih
        simp only [Option.toList_some, List.cons_append, List.nil_append, hd,
          startStopChain]
        simpa using hih

/-- C4: the watcher callback emits DictateStart exactly when the required
modifier set (Fn and Shift) goes from not-fully-held to fully-held and
DictateStop exactly when it goes from fully-held to not-fully-held, and over
every sequence of flags-changed events the emitted stream alternates starts
and stops relative to the initial dictating flag, so two DictateStarts never
occur without an intervening DictateStop. -/
theorem watcher_edge_detection :
    (∀ (st : CallbackState) (flags : ℕ),
      ((flagsChangedStep st flags).2 = some GlobeKeyEvent.DictateStart ↔
        requiredHeld flags = true ∧ st.is_dictating = false) ∧
      ((flagsChangedStep st flags).2 = some GlobeKeyEvent.DictateStop ↔
        requiredHeld flags = false ∧ st.is_dictating = true)) ∧
    (∀ (st : CallbackState) (fs : List ℕ),
      startStopChain st.is_dictating (flagsChangedRun st fs).2 = true) :=
  ⟨fun st flags =>
    ⟨(flagsChangedStep_spec st flags).1, (flagsChangedStep_spec st flags).2.1⟩,
   fun st fs => flagsChangedRun_chain fs st⟩

/-- C9 counterexample: after a read that reported raw flags 0x00820000, a
second immediate read still reports raw flags 0x00820000, not zero, because
take_diagnostics loads (rather than swaps) LAST_FLAGS_RAW. -/
theorem take_diagnostics_flags_not_reset :
    ((take_diagnostics (take_diagnostics ⟨3, 1, 2, 8519680, U64_MAX⟩).2).1).last_flags_raw
        = 8519680 ∧ (8519680 : ℕ) ≠ 0 :=
  ⟨rfl, by decide⟩

/-- C9 (amended): a read reports the accumulated counter values and the last
raw flags, and resets the three counters but not the last raw flags: an
immediately subsequent read reports zero for all three counters and the same
last raw flags as the first read. -/
theorem take_diagnostics_resets_counters (c : DiagnosticsCells) :
    (take_diagnostics c).1.flags_events = c.flags_event_count ∧
    (take_diagnostics c).1.disabled_timeout = c.disabled_timeout_count ∧
    (take_diagnostics c).1.disabled_user_input = c.disabled_user_input_count ∧
    (take_diagnostics c).1.last_flags_raw = c.last_flags_raw ∧
    (take_diagnostics (take_diagnostics c).2).1.flags_events = 0 ∧
    (take_diagnostics (take_diagnostics c).2).1.disabled_timeout = 0 ∧
    (take_diagnostics (take_diagnostics c).2).1.disabled_user_input = 0 ∧
    (take_diagnostics (take_diagnostics c).2).1.last_flags_raw = c.last_flags_raw :=
  ⟨rfl, rfl, rfl, rfl, rfl, rfl, rfl, rfl⟩

/-- C5 counterexample: in an environment where no whisper-cli executable
exists at any probed path but the downloaded medium model does exist,
is_available() still returns true, so availability does not require the
executable to have been located. -/
theorem is_available_without_executable :
    (WhisperTranscriber.new c5Env).is_available = true ∧ whisper_cli_located c5Env = false := by
  constructor <;> decide

/-- C5 (amended): is_available() reports exactly whether a local model file
was located at construction time (the five probed model paths, in search
order); the executable search always resolves to some path, falling back to
the bare name, and its result plays no part in availability. -/
theorem is_available_iff_model_found (env : FsEnv) :
    (WhisperTranscriber.new env).is_available
      = (env.file_exists (app_model_path env) || env.file_exists (quantized_model_path env) ||
          env.file_exists (standard_model_path env) ||
          env.file_exists base_quantized_model_path ||
          env.file_exists base_standard_model_path) := by
  unfold WhisperTranscriber.new WhisperTranscriber.is_available find_model
  split_ifs <;> simp_all

/-- C2: a DictateStart handled while Idle, with the engine available and the
capture stream opening successfully, enters Recording with a fresh recorder
and the overlay showing; handling another DictateStart immediately afterwards
changes nothing, and a DictateStart handled in any non-Idle state (Recording
or Transcribing) changes nothing at all, so capture is never started while
already started and at most one live session exists.  The engine-availability
hypothesis mirrors the claim; update() itself does not consult it (it gates
watcher installation in DictationManager::start). -/
theorem start_event_single_capture (env env2 : StepEnv) (w : SessionWorld)
    (_havail : w.manager.transcriber_available = true)
    (hcap : env.capture_ok = true) :
    (w.manager.state = DictationState.Idle →
      ((handle_globe_event env w GlobeKeyEvent.DictateStart).manager.state
          = DictationState.Recording ∧
        (handle_globe_event env w GlobeKeyEvent.DictateStart).manager.recorder = some ⟨[]⟩ ∧
        (handle_globe_event env w GlobeKeyEvent.DictateStart).manager.overlay.is_visible
          = true ∧
        handle_globe_event env2 (handle_globe_event env w GlobeKeyEvent.DictateStart)
            GlobeKeyEvent.DictateStart
          = handle_globe_event env w GlobeKeyEvent.DictateStart)) ∧
    (w.manager.state ≠ DictationState.Idle →
      handle_globe_event env w GlobeKeyEvent.DictateStart = w) := by
  constructor
  · intro hidle
    have h1 : handle_globe_event env w GlobeKeyEvent.DictateStart
        = { w with manager :=
            { w.manager with
              recorder := some ⟨[]⟩
              overlay := w.manager.overlay.show_overlay
              state := DictationState.Recording } } := by
      simp [handle_globe_event, hidle, start_recording, hcap]
    rw [h1]
    refine ⟨rfl, rfl, rfl, ?_⟩
    simp [handle_globe_event]
  · intro hne
    simp [handle_globe_event, hne]

/-- Witness for C2 at an idle world with a succeeding capture stream. -/
theorem start_event_single_capture_witness :
    idleWorld.manager.state = DictationState.Idle ∧
      (handle_globe_event ⟨true, true⟩ idleWorld GlobeKeyEvent.DictateStart).manager.state
        = DictationState.Recording :=
  ⟨rfl,
   ((start_event_single_capture ⟨true, true⟩ ⟨true, true⟩ idleWorld rfl rfl).1 rfl).1⟩

/-- C3: a DictateStop handled while Recording with an empty drained buffer
hides the overlay and returns to Idle, leaves the temp-file state untouched
(no WAV is written) and leaves the result channel untouched (no worker is
spawned). -/
theorem stop_with_empty_buffer (env : StepEnv) (w : SessionWorld)
    (hstate : w.manager.state = DictationState.Recording)
    (hrec : w.manager.recorder = some ⟨[]⟩) :
    (handle_globe_event env w GlobeKeyEvent.DictateStop).manager.state = DictationState.Idle ∧
      (handle_globe_event env w GlobeKeyEvent.DictateStop).manager.overlay.is_visible
        = false ∧
      (handle_globe_event env w GlobeKeyEvent.DictateStop).temp_file = w.temp_file ∧
      (handle_globe_event env w GlobeKeyEvent.DictateStop).manager.result_rx
        = w.manager.result_rx := by
  have h1 : handle_globe_event env w GlobeKeyEvent.DictateStop
      = { w with manager :=
          { w.manager with
            recorder := some ⟨[]⟩
            overlay := (w.manager.overlay.set_mode OverlayMode.Transcribing).hide
            state := DictationState.Idle } } := by
    simp [handle_globe_event, hstate, stop_and_transcribe, hrec]
  rw [h1]
  exact ⟨rfl, hide_is_visible _, rfl, rfl⟩

/-- Witness for C3 at a recording world whose buffer drained empty. -/
theorem stop_with_empty_buffer_witness :
    emptyBufferWorld.manager.state = DictationState.Recording ∧
      (handle_globe_event ⟨true, true⟩ emptyBufferWorld GlobeKeyEvent.DictateStop).manager.state
        = DictationState.Idle :=
  ⟨rfl, (stop_with_empty_buffer ⟨true, true⟩ emptyBufferWorld rfl rfl).1⟩

/-- C1 counterexample: a DictateStop handled while Recording with one
captured sample does not transition to Transcribing when writing the
temporary WAV file fails; the orchestrator hides the overlay and returns to
Idle without spawning a worker, so the claimed transition does not always
happen. -/
theorem stop_with_samples_save_failure :
    (handle_globe_event ⟨true, false⟩ c1World GlobeKeyEvent.DictateStop).manager.state
        = DictationState.Idle ∧
      DictationState.Idle ≠ DictationState.Transcribing ∧
      (handle_globe_event ⟨true, false⟩ c1World GlobeKeyEvent.DictateStop).manager.result_rx
        = false := by
  refine ⟨?_, by decide, ?_⟩ <;> rfl

/-- C1 (amended): a DictateStop handled while Recording with at least one
captured sample transitions to Transcribing and creates the temp audio file,
provided writing the WAV file succeeds; the spawned worker then deletes the
file whatever transcribe returns, and when the orchestrator concludes the
session, on the worker's message (Transcribed or Error) or on a
disconnection, the state is Idle, the overlay is hidden and the temp file is
absent. -/
theorem stop_transcribes_and_cleanup (env : StepEnv) (w : SessionWorld)
    (samples : List ℚ) (outcome : Except String String) (recv : TryRecvOutcome)
    (hstate : w.manager.state = DictationState.Recording)
    (hrec : w.manager.recorder = some ⟨samples⟩)
    (hne : samples ≠ [])
    (hsave : env.save_ok = true)
    (hrecv : recv = TryRecvOutcome.Msg (transcription_worker outcome).2 ∨
      recv = TryRecvOutcome.Disconnected) :
    (handle_globe_event env w GlobeKeyEvent.DictateStop).manager.state
        = DictationState.Transcribing ∧
      (handle_globe_event env w GlobeKeyEvent.DictateStop).temp_file = true ∧
      (session_conclusion env w outcome recv).manager.state = DictationState.Idle ∧
      (session_conclusion env w outcome recv).manager.overlay.is_visible = false ∧
      (session_conclusion env w outcome recv).temp_file = false := by
  have hne' : samples.isEmpty = false := by
    cases samples with
    | nil => exact absurd rfl hne
    | cons a l => rfl
  have hstop : handle_globe_event env w GlobeKeyEvent.DictateStop
      = { manager :=
            { w.manager with
              recorder := none
              overlay := w.manager.overlay.set_mode OverlayMode.Transcribing
              result_rx := true
              state := DictationState.Transcribing }
          temp_file := true } := by
    simp [handle_globe_event, hstate, stop_and_transcribe, hrec, hne', hsave]
  refine ⟨by rw [hstop], by rw [hstop], ?_, ?_, ?_⟩ <;>
    · simp only [session_conclusion, hstop]
      rcases hrecv with h | h <;> subst h <;> cases outcome <;>
        simp [check_result, transcription_worker, RecordingOverlay.is_visible,
          RecordingOverlay.hide]

/-- Witness for C1 (amended) at a one-sample recording world, a succeeding
save, and a worker that transcribed the text hello. -/
theorem stop_transcribes_and_cleanup_witness :
    (handle_globe_event ⟨true, true⟩ c1World GlobeKeyEvent.DictateStop).manager.state
        = DictationState.Transcribing ∧
      (session_conclusion ⟨true, true⟩ c1World (Except.ok "hello")
          (TryRecvOutcome.Msg (DictationResult.Transcribed "hello"))).temp_file = false :=
  ⟨(stop_transcribes_and_cleanup ⟨true, true⟩ c1World [1] (Except.ok "hello")
      (TryRecvOutcome.Msg (DictationResult.Transcribed "hello")) rfl rfl (by simp) rfl
      (Or.inl rfl)).1,
   (stop_transcribes_and_cleanup ⟨true, true⟩ c1World [1] (Except.ok "hello")
      (TryRecvOutcome.Msg (DictationResult.Transcribed "hello")) rfl rfl (by simp) rfl
      (Or.inl rfl)).2.2.2.2⟩

/-- C10: with the manager disabled, update() returns immediately, consuming
no watcher event and no transcription result and changing nothing; and
set_enabled(false) itself stops the watcher, hides the overlay and forces the
state to Idle. -/
theorem disabled_manager_inert (env : StepEnv) (w : SessionWorld)
    (queue : List GlobeKeyEvent) (recv : TryRecvOutcome) (m : DictationManager)
    (hdis : w.manager.enabled = false) :
    update env w queue recv = (w, queue) ∧
      (set_enabled m false).enabled = false ∧
      (set_enabled m false).watcher_running = false ∧
      (set_enabled m false).overlay.is_visible = false ∧
      (set_enabled m false).state = DictationState.Idle := by
  refine ⟨?_, rfl, rfl, rfl, rfl⟩
  simp [update, hdis]

/-- Witness for C10 at a disabled world with a pending DictateStart. -/
theorem disabled_manager_inert_witness :
    disabledWorld.manager.enabled = false ∧
      update ⟨true, true⟩ disabledWorld [GlobeKeyEvent.DictateStart] TryRecvOutcome.Empty
        = (disabledWorld, [GlobeKeyEvent.DictateStart]) :=
  ⟨rfl,
   (disabled_manager_inert ⟨true, true⟩ disabledWorld [GlobeKeyEvent.DictateStart]
      TryRecvOutcome.Empty c1World.manager rfl).1⟩

end Dictation
